import Mathlib

/-!
Verification development for the STM32H743 bare-metal clock bring-up firmware
(files main.c, system_clock_config.c, mco_pins_config.c, mco_select_set.c).

The firmware is a fixed, linear sequence of memory-mapped register writes and
polling loops.  We embed it shallowly: each C function body becomes a list of
`Instr` values, one per register-access statement, transcribed statement by
statement from the source.  A small interpreter `runI` executes such a list
over a `State` that holds one natural number per 32-bit hardware register
(values kept below 2^32 by construction of the masks and reset values).
Polling loops (`while (!(REG & MASK)) {}`) consume one entry of an
environment `List Bool` that says whether the hardware eventually presents
the awaited flag value at that poll site; a `false` (or exhausted) entry
models hardware that never presents the flag, on which the interpreter stops
with no final state, mirroring the infinite loop.
-/

/-- Memory-mapped hardware registers accessed by the firmware. -/
inductive Reg where
  | PWR_D3CR | PWR_CR3 | SYSCFG_PWRCR
  | RCC_CR | RCC_CFGR | RCC_AHB4ENR | RCC_APB4ENR
  | RCC_PLLCKSELR | RCC_PLL1DIVR | RCC_PLLCFGR | RCC_PLL1FRACR
  | RCC_D1CFGR | RCC_D2CFGR | RCC_D3CFGR
  | GPIOA_MODER | GPIOA_AFRH | GPIOA_OTYPER | GPIOA_OSPEEDR
  | GPIOC_MODER | GPIOC_AFRH | GPIOC_OTYPER | GPIOC_OSPEEDR
  | GPIOB_MODER | GPIOB_ODR
  | GPIOH_MODER | GPIOH_ODR
  | GPIOI_MODER | GPIOI_ODR
  deriving DecidableEq, Repr

/-- The machine state: the software-visible value of every register the
firmware writes.  Hardware-controlled status bits (ready flags) are not
tracked here; polling of them is modelled by the environment of `runI`. -/
structure State where
  PWR_D3CR : Nat
  PWR_CR3 : Nat
  SYSCFG_PWRCR : Nat
  RCC_CR : Nat
  RCC_CFGR : Nat
  RCC_AHB4ENR : Nat
  RCC_APB4ENR : Nat
  RCC_PLLCKSELR : Nat
  RCC_PLL1DIVR : Nat
  RCC_PLLCFGR : Nat
  RCC_PLL1FRACR : Nat
  RCC_D1CFGR : Nat
  RCC_D2CFGR : Nat
  RCC_D3CFGR : Nat
  GPIOA_MODER : Nat
  GPIOA_AFRH : Nat
  GPIOA_OTYPER : Nat
  GPIOA_OSPEEDR : Nat
  GPIOC_MODER : Nat
  GPIOC_AFRH : Nat
  GPIOC_OTYPER : Nat
  GPIOC_OSPEEDR : Nat
  GPIOB_MODER : Nat
  GPIOB_ODR : Nat
  GPIOH_MODER : Nat
  GPIOH_ODR : Nat
  GPIOI_MODER : Nat
  GPIOI_ODR : Nat
  deriving DecidableEq, Repr

/-- Read a register from the state. -/
def getReg (s : State) : Reg → Nat
  | .PWR_D3CR => s.PWR_D3CR
  | .PWR_CR3 => s.PWR_CR3
  | .SYSCFG_PWRCR => s.SYSCFG_PWRCR
  | .RCC_CR => s.RCC_CR
  | .RCC_CFGR => s.RCC_CFGR
  | .RCC_AHB4ENR => s.RCC_AHB4ENR
  | .RCC_APB4ENR => s.RCC_APB4ENR
  | .RCC_PLLCKSELR => s.RCC_PLLCKSELR
  | .RCC_PLL1DIVR => s.RCC_PLL1DIVR
  | .RCC_PLLCFGR => s.RCC_PLLCFGR
  | .RCC_PLL1FRACR => s.RCC_PLL1FRACR
  | .RCC_D1CFGR => s.RCC_D1CFGR
  | .RCC_D2CFGR => s.RCC_D2CFGR
  | .RCC_D3CFGR => s.RCC_D3CFGR
  | .GPIOA_MODER => s.GPIOA_MODER
  | .GPIOA_AFRH => s.GPIOA_AFRH
  | .GPIOA_OTYPER => s.GPIOA_OTYPER
  | .GPIOA_OSPEEDR => s.GPIOA_OSPEEDR
  | .GPIOC_MODER => s.GPIOC_MODER
  | .GPIOC_AFRH => s.GPIOC_AFRH
  | .GPIOC_OTYPER => s.GPIOC_OTYPER
  | .GPIOC_OSPEEDR => s.GPIOC_OSPEEDR
  | .GPIOB_MODER => s.GPIOB_MODER
  | .GPIOB_ODR => s.GPIOB_ODR
  | .GPIOH_MODER => s.GPIOH_MODER
  | .GPIOH_ODR => s.GPIOH_ODR
  | .GPIOI_MODER => s.GPIOI_MODER
  | .GPIOI_ODR => s.GPIOI_ODR

/-- Write a register in the state. -/
def setReg (s : State) (r : Reg) (v : Nat) : State :=
  match r with
  | .PWR_D3CR => { s with PWR_D3CR := v }
  | .PWR_CR3 => { s with PWR_CR3 := v }
  | .SYSCFG_PWRCR => { s with SYSCFG_PWRCR := v }
  | .RCC_CR => { s with RCC_CR := v }
  | .RCC_CFGR => { s with RCC_CFGR := v }
  | .RCC_AHB4ENR => { s with RCC_AHB4ENR := v }
  | .RCC_APB4ENR => { s with RCC_APB4ENR := v }
  | .RCC_PLLCKSELR => { s with RCC_PLLCKSELR := v }
  | .RCC_PLL1DIVR => { s with RCC_PLL1DIVR := v }
  | .RCC_PLLCFGR => { s with RCC_PLLCFGR := v }
  | .RCC_PLL1FRACR => { s with RCC_PLL1FRACR := v }
  | .RCC_D1CFGR => { s with RCC_D1CFGR := v }
  | .RCC_D2CFGR => { s with RCC_D2CFGR := v }
  | .RCC_D3CFGR => { s with RCC_D3CFGR := v }
  | .GPIOA_MODER => { s with GPIOA_MODER := v }
  | .GPIOA_AFRH => { s with GPIOA_AFRH := v }
  | .GPIOA_OTYPER => { s with GPIOA_OTYPER := v }
  | .GPIOA_OSPEEDR => { s with GPIOA_OSPEEDR := v }
  | .GPIOC_MODER => { s with GPIOC_MODER := v }
  | .GPIOC_AFRH => { s with GPIOC_AFRH := v }
  | .GPIOC_OTYPER => { s with GPIOC_OTYPER := v }
  | .GPIOC_OSPEEDR => { s with GPIOC_OSPEEDR := v }
  | .GPIOB_MODER => { s with GPIOB_MODER := v }
  | .GPIOB_ODR => { s with GPIOB_ODR := v }
  | .GPIOH_MODER => { s with GPIOH_MODER := v }
  | .GPIOH_ODR => { s with GPIOH_ODR := v }
  | .GPIOI_MODER => { s with GPIOI_MODER := v }
  | .GPIOI_ODR => { s with GPIOI_ODR := v }

/-- All ones in 32 bits; used to model the C bitwise complement of a mask on
a `uint32_t` (`~mask` is `M32 ^^^ mask` for masks below 2^32). -/
def M32 : Nat := 0xFFFFFFFF

/-- A read-modify-write (or plain store) operation on one register, as it
appears in the C source: `|=`, `&= ~`, `^=`, or `=`. -/
inductive Op where
  | orM (m : Nat)
  | andNotM (m : Nat)
  | xorM (m : Nat)
  | setV (v : Nat)
  deriving DecidableEq, Repr

/-- Apply an operation to the current register value. -/
def applyOp (x : Nat) : Op → Nat
  | .orM m => x ||| m
  | .andNotM m => x &&& (M32 ^^^ m)
  | .xorM m => x ^^^ m
  | .setV v => v

/-- The mask (or stored value) mentioned by an operation. -/
def opMask : Op → Nat
  | .orM m => m
  | .andNotM m => m
  | .xorM m => m
  | .setV v => v

/-- One register-access statement of the firmware: either a write to a
register or a polling loop on a register flag.  The poll carries the polled
register, the mask tested, and whether the loop waits for the masked bits to
become set (`true`) or clear (`false`); these describe the source condition,
while the outcome of the wait is supplied by the interpreter environment. -/
inductive Instr where
  | write (r : Reg) (op : Op)
  | poll (r : Reg) (mask : Nat) (waitSet : Bool)
  deriving DecidableEq, Repr

/-- A register write that actually happened: the register, the operation,
and the value stored. -/
structure Event where
  reg : Reg
  op : Op
  val : Nat
  deriving DecidableEq, Repr

/-- Interpreter.  Executes instructions in order; a write appends an event,
a poll consumes the head of the environment: `true` means the hardware
eventually presents the awaited flag value and the loop exits, `false` (or
an exhausted environment) means it never does, so execution stays in the
loop forever: no final state, and no further event.  Returns the event
trace, and on termination the final state plus the unconsumed environment. -/
def runI : List Instr → State → List Bool → List Event × Option (State × List Bool)
  | [], s, env => ([], some (s, env))
  | .write r op :: rest, s, env =>
    let v := applyOp (getReg s r) op
    let res := runI rest (setReg s r v) env
    (⟨r, op, v⟩ :: res.1, res.2)
  | .poll _ _ _ :: rest, s, env =>
    match env with
    | [] => ([], none)
    | b :: env2 => if b then runI rest s env2 else ([], none)

/-- Interpreter for poll-free instruction lists (the LED blink loop body
contains no polling loop); a poll, if present, would contribute nothing. -/
def runP : List Instr → State → List Event × State
  | [], s => ([], s)
  | .write r op :: rest, s =>
    let v := applyOp (getReg s r) op
    let res := runP rest (setReg s r v)
    (⟨r, op, v⟩ :: res.1, res.2)
  | .poll _ _ _ :: rest, s => runP rest s

/-- The poll sites of an instruction list, in program order. -/
def pollsOf (l : List Instr) : List (Reg × Nat × Bool) :=
  l.filterMap fun i =>
    match i with
    | .poll r m b => some (r, m, b)
    | .write _ _ => none

/- Register bit masks, with the names used by the source (CMSIS device
header stm32h743xx.h plus the macros defined in the repository itself). -/

def PWR_D3CR_VOS_0 : Nat := 1 <<< 14
def PWR_D3CR_VOS_1 : Nat := 1 <<< 15
def PWR_D3CR_VOSRDY : Nat := 1 <<< 13
def PWR_CR3_BYPASS : Nat := 1 <<< 0
def PWR_CR3_LDOEN : Nat := 1 <<< 1
def PWR_CR3_SCUEN : Nat := 1 <<< 2
def RCC_APB4ENR_SYSCFGEN : Nat := 1 <<< 1
def SYSCFG_PWRCR_ODEN : Nat := 1 <<< 0
def RCC_CR_HSION : Nat := 1 <<< 0
def RCC_CR_HSEON : Nat := 1 <<< 16
def RCC_CR_HSERDY : Nat := 1 <<< 17
def RCC_CR_PLL1ON : Nat := 1 <<< 24
def RCC_CR_PLLON : Nat := RCC_CR_PLL1ON
def RCC_CR_PLL1RDY : Nat := 1 <<< 25
def RCC_CFGR_SW_HSE : Nat := 0x2
def RCC_CFGR_SW_PLL1 : Nat := 0x3
def RCC_CFGR_SWS_HSE : Nat := 0x2 <<< 3
def RCC_CFGR_SWS_PLL1 : Nat := 0x3 <<< 3
def RCC_PLLCKSELR_PLLSRC_HSE : Nat := 0x2
def RCC_PLLCFGR_PLL1FRACEN : Nat := 1 <<< 0
def RCC_PLLCFGR_PLL1VCOSEL : Nat := 1 <<< 1
def RCC_PLLCFGR_PLL1RGE_2 : Nat := 0x2 <<< 2
def RCC_PLLCFGR_DIVP1EN : Nat := 1 <<< 16
def RCC_PLLCFGR_DIVQ1EN : Nat := 1 <<< 17
def RCC_PLLCFGR_DIVR1EN : Nat := 1 <<< 18
def RCC_D1CFGR_D1PPRE_2 : Nat := 0x4 <<< 4
def RCC_D2CFGR_D2PPRE1_2 : Nat := 0x4 <<< 4
def RCC_D2CFGR_D2PPRE2_2 : Nat := 0x4 <<< 8
def RCC_D3CFGR_D3PPRE_2 : Nat := 0x4 <<< 4

/- Macros defined by the repository (system_clock_config.c, main.h). -/

def RCC_PLLCKSELR_DIVM1_CLEAR : Nat := 0b111111 <<< 4
def RCC_PLLCKSELR_DIV_M1 : Nat := 0b000101 <<< 4
def RCC_PLL1DIVR_DIV_N1 : Nat := 0xBF <<< 0
def RCC_PLL1DIVR_DIV_P1 : Nat := 1 <<< 9
def RCC_PLL1DIVR_DIV_Q1 : Nat := 1 <<< 16
def RCC_PLL1DIVR_DIV_R1 : Nat := 1 <<< 24
def RCC_D1CFGR_HPRE_DIV_8 : Nat := 0x08 <<< 0
def RCC_D1CFGR_D1CPRE_RESET : Nat := 0b1111 <<< 8

/- CMSIS GPIO and RCC_AHB4ENR / RCC_CFGR masks used by mco_pins_config.c and
mco_select_set.c. -/

def RCC_AHB4ENR_GPIOAEN : Nat := 1 <<< 0
def RCC_AHB4ENR_GPIOBEN : Nat := 1 <<< 1
def RCC_AHB4ENR_GPIOCEN : Nat := 1 <<< 2
def RCC_AHB4ENR_GPIOHEN : Nat := 1 <<< 7
def RCC_AHB4ENR_GPIOIEN : Nat := 1 <<< 8
def GPIO_MODER_MODE8_0 : Nat := 1 <<< 16
def GPIO_MODER_MODE8_1 : Nat := 1 <<< 17
def GPIO_MODER_MODE9_0 : Nat := 1 <<< 18
def GPIO_MODER_MODE9_1 : Nat := 1 <<< 19
def GPIO_AFRH_AFSEL8_0 : Nat := 1 <<< 0
def GPIO_AFRH_AFSEL8_1 : Nat := 1 <<< 1
def GPIO_AFRH_AFSEL8_2 : Nat := 1 <<< 2
def GPIO_AFRH_AFSEL8_3 : Nat := 1 <<< 3
def GPIO_AFRH_AFSEL9_0 : Nat := 1 <<< 4
def GPIO_AFRH_AFSEL9_1 : Nat := 1 <<< 5
def GPIO_AFRH_AFSEL9_2 : Nat := 1 <<< 6
def GPIO_AFRH_AFSEL9_3 : Nat := 1 <<< 7
def GPIO_OTYPER_OT8 : Nat := 1 <<< 8
def GPIO_OTYPER_OT9 : Nat := 1 <<< 9
def GPIO_OSPEEDR_OSPEED8_0 : Nat := 1 <<< 16
def GPIO_OSPEEDR_OSPEED8_1 : Nat := 1 <<< 17
def GPIO_OSPEEDR_OSPEED9_0 : Nat := 1 <<< 18
def GPIO_OSPEEDR_OSPEED9_1 : Nat := 1 <<< 19
def RCC_CFGR_MCO1PRE_0 : Nat := 1 <<< 18
def RCC_CFGR_MCO1PRE_1 : Nat := 1 <<< 19
def RCC_CFGR_MCO1PRE_2 : Nat := 1 <<< 20
def RCC_CFGR_MCO1PRE_3 : Nat := 1 <<< 21
def RCC_CFGR_MCO1_0 : Nat := 1 <<< 22
def RCC_CFGR_MCO1_1 : Nat := 1 <<< 23
def RCC_CFGR_MCO1_2 : Nat := 1 <<< 24
def RCC_CFGR_MCO2PRE_0 : Nat := 1 <<< 25
def RCC_CFGR_MCO2PRE_1 : Nat := 1 <<< 26
def RCC_CFGR_MCO2PRE_2 : Nat := 1 <<< 27
def RCC_CFGR_MCO2PRE_3 : Nat := 1 <<< 28
def RCC_CFGR_MCO2_0 : Nat := 1 <<< 29
def RCC_CFGR_MCO2_1 : Nat := 1 <<< 30
def RCC_CFGR_MCO2_2 : Nat := 1 <<< 31

/- LED masks from main.c: LED1 PB6, LED2 PB7, LED3 PH4, LED4 PI8. -/

def LED1_ON : Nat := 1 <<< 6
def LED2_ON : Nat := 1 <<< 7
def LED3_ON : Nat := 1 <<< 4
def LED4_ON : Nat := 1 <<< 8

/-- The documented hardware reset values of the registers (RM0433 Rev 8 for
RCC, PWR, SYSCFG and GPIO; GPIOA, GPIOB keep debug-pin alternate settings). -/
def resetState : State where
  PWR_D3CR := 0x00004000
  PWR_CR3 := 0x00000046
  SYSCFG_PWRCR := 0x00000000
  RCC_CR := 0x00000025
  RCC_CFGR := 0x00000000
  RCC_AHB4ENR := 0x00000000
  RCC_APB4ENR := 0x00010000
  RCC_PLLCKSELR := 0x02020200
  RCC_PLL1DIVR := 0x01010280
  RCC_PLLCFGR := 0x01FF0000
  RCC_PLL1FRACR := 0x00000000
  RCC_D1CFGR := 0x00000000
  RCC_D2CFGR := 0x00000000
  RCC_D3CFGR := 0x00000000
  GPIOA_MODER := 0xABFFFFFF
  GPIOA_AFRH := 0x00000000
  GPIOA_OTYPER := 0x00000000
  GPIOA_OSPEEDR := 0x0C000000
  GPIOC_MODER := 0xFFFFFFFF
  GPIOC_AFRH := 0x00000000
  GPIOC_OTYPER := 0x00000000
  GPIOC_OSPEEDR := 0x00000000
  GPIOB_MODER := 0xFFFFFEBF
  GPIOB_ODR := 0x00000000
  GPIOH_MODER := 0xFFFFFFFF
  GPIOH_ODR := 0x00000000
  GPIOI_MODER := 0xFFFFFFFF
  GPIOI_ODR := 0x00000000

/-- Body of MCO_Pins_Config (mco_pins_config.c, lines 27 to 67), one entry
per register-access statement, in source order. -/
def MCO_Pins_Config_instrs : List Instr := [
  .write .RCC_AHB4ENR (.orM (RCC_AHB4ENR_GPIOAEN ||| RCC_AHB4ENR_GPIOCEN)),
  .write .GPIOA_MODER (.orM GPIO_MODER_MODE8_1),
  .write .GPIOA_MODER (.andNotM GPIO_MODER_MODE8_0),
  .write .GPIOC_MODER (.orM GPIO_MODER_MODE9_1),
  .write .GPIOC_MODER (.andNotM GPIO_MODER_MODE9_0),
  .write .GPIOA_AFRH (.andNotM (GPIO_AFRH_AFSEL8_3 ||| GPIO_AFRH_AFSEL8_2 ||| GPIO_AFRH_AFSEL8_1 ||| GPIO_AFRH_AFSEL8_0)),
  .write .GPIOC_AFRH (.andNotM (GPIO_AFRH_AFSEL9_3 ||| GPIO_AFRH_AFSEL9_2 ||| GPIO_AFRH_AFSEL9_1 ||| GPIO_AFRH_AFSEL9_0)),
  .write .GPIOA_OTYPER (.andNotM GPIO_OTYPER_OT8),
  .write .GPIOC_OTYPER (.andNotM GPIO_OTYPER_OT9),
  .write .GPIOC_OSPEEDR (.orM (GPIO_OSPEEDR_OSPEED9_1 ||| GPIO_OSPEEDR_OSPEED9_0)),
  .write .GPIOA_OSPEEDR (.orM (GPIO_OSPEEDR_OSPEED8_1 ||| GPIO_OSPEEDR_OSPEED8_0))
]

/-- Body of SystemClock_Config (system_clock_config.c, lines 39 to 284), one
entry per register-access statement or polling loop, in source order. -/
def SystemClock_Config_instrs : List Instr := [
  .write .PWR_D3CR (.orM (PWR_D3CR_VOS_1 ||| PWR_D3CR_VOS_0)),
  .poll .PWR_D3CR PWR_D3CR_VOS_1 true,
  .poll .PWR_D3CR PWR_D3CR_VOS_0 true,
  .write .PWR_CR3 (.orM (PWR_CR3_SCUEN ||| PWR_CR3_LDOEN ||| PWR_CR3_BYPASS)),
  .write .RCC_APB4ENR (.orM RCC_APB4ENR_SYSCFGEN),
  .write .SYSCFG_PWRCR (.orM SYSCFG_PWRCR_ODEN),
  .poll .PWR_D3CR PWR_D3CR_VOSRDY true,
  .write .RCC_CR (.orM RCC_CR_HSEON),
  .poll .RCC_CR RCC_CR_HSERDY true,
  .write .RCC_CFGR (.orM RCC_CFGR_SW_HSE),
  .poll .RCC_CFGR RCC_CFGR_SWS_HSE true,
  .write .RCC_CR (.andNotM RCC_CR_HSION),
  .write .RCC_CR (.andNotM RCC_CR_PLL1ON),
  .poll .RCC_CR RCC_CR_PLL1RDY false,
  .write .RCC_PLLCKSELR (.andNotM RCC_PLLCKSELR_DIVM1_CLEAR),
  .write .RCC_PLLCKSELR (.orM RCC_PLLCKSELR_DIV_M1),
  .write .RCC_PLLCKSELR (.orM RCC_PLLCKSELR_PLLSRC_HSE),
  .write .RCC_PLL1DIVR (.orM RCC_PLL1DIVR_DIV_N1),
  .write .RCC_PLL1DIVR (.orM RCC_PLL1DIVR_DIV_P1),
  .write .RCC_PLL1DIVR (.orM RCC_PLL1DIVR_DIV_Q1),
  .write .RCC_PLL1DIVR (.orM RCC_PLL1DIVR_DIV_R1),
  .write .RCC_PLLCFGR (.andNotM RCC_PLLCFGR_PLL1FRACEN),
  .write .RCC_PLL1FRACR (.setV 0x00),
  .write .RCC_PLLCFGR (.orM RCC_PLLCFGR_PLL1RGE_2),
  .write .RCC_PLLCFGR (.andNotM RCC_PLLCFGR_PLL1VCOSEL),
  .write .RCC_PLLCFGR (.orM RCC_PLLCFGR_DIVP1EN),
  .write .RCC_PLLCFGR (.orM RCC_PLLCFGR_DIVQ1EN),
  .write .RCC_PLLCFGR (.orM RCC_PLLCFGR_DIVR1EN),
  .write .RCC_PLLCFGR (.orM RCC_PLLCFGR_PLL1FRACEN),
  .write .RCC_CR (.orM RCC_CR_PLLON),
  .poll .RCC_CR RCC_CR_PLL1RDY true,
  .write .RCC_D1CFGR (.orM RCC_D1CFGR_HPRE_DIV_8),
  .write .RCC_D1CFGR (.andNotM RCC_D1CFGR_D1CPRE_RESET),
  .write .RCC_CFGR (.orM RCC_CFGR_SW_PLL1),
  .poll .RCC_CFGR RCC_CFGR_SWS_PLL1 true,
  .write .RCC_D1CFGR (.orM RCC_D1CFGR_D1PPRE_2),
  .write .RCC_D2CFGR (.orM RCC_D2CFGR_D2PPRE1_2),
  .write .RCC_D2CFGR (.orM RCC_D2CFGR_D2PPRE2_2),
  .write .RCC_D3CFGR (.orM RCC_D3CFGR_D3PPRE_2)
]

/-- Body of MCO_Select_Set (mco_select_set.c, lines 27 to 81), one entry per
register-access statement, in source order. -/
def MCO_Select_Set_instrs : List Instr := [
  .write .RCC_CFGR (.andNotM (RCC_CFGR_MCO1_2 ||| RCC_CFGR_MCO1_1 ||| RCC_CFGR_MCO1_0)),
  .write .RCC_CFGR (.andNotM RCC_CFGR_MCO2_2),
  .write .RCC_CFGR (.orM RCC_CFGR_MCO2_1),
  .write .RCC_CFGR (.orM RCC_CFGR_MCO2_0),
  .write .RCC_CFGR (.andNotM (RCC_CFGR_MCO1PRE_3 ||| RCC_CFGR_MCO1PRE_2 ||| RCC_CFGR_MCO1PRE_1 ||| RCC_CFGR_MCO1PRE_0)),
  .write .RCC_CFGR (.andNotM RCC_CFGR_MCO2PRE_3),
  .write .RCC_CFGR (.orM RCC_CFGR_MCO2PRE_2),
  .write .RCC_CFGR (.andNotM RCC_CFGR_MCO2PRE_1),
  .write .RCC_CFGR (.orM RCC_CFGR_MCO2PRE_0)
]

/-- Body of GPIO_LEDs_Config (main.c, lines 339 to 366), one entry per
register-access statement, in source order. -/
def GPIO_LEDs_Config_instrs : List Instr := [
  .write .RCC_AHB4ENR (.orM (RCC_AHB4ENR_GPIOBEN ||| RCC_AHB4ENR_GPIOHEN ||| RCC_AHB4ENR_GPIOIEN)),
  .write .GPIOB_MODER (.andNotM (1 <<< 13)),
  .write .GPIOB_MODER (.orM (1 <<< 12)),
  .write .GPIOB_MODER (.andNotM (1 <<< 15)),
  .write .GPIOB_MODER (.orM (1 <<< 14)),
  .write .GPIOH_MODER (.andNotM (1 <<< 9)),
  .write .GPIOH_MODER (.orM (1 <<< 8)),
  .write .GPIOI_MODER (.andNotM (1 <<< 17)),
  .write .GPIOI_MODER (.orM (1 <<< 16))
]

/-- Body of Turn_LEDs_ON (main.c, lines 377 to 384). -/
def Turn_LEDs_ON_instrs : List Instr := [
  .write .GPIOB_ODR (.orM LED1_ON),
  .write .GPIOB_ODR (.orM LED2_ON),
  .write .GPIOH_ODR (.orM LED3_ON),
  .write .GPIOI_ODR (.orM LED4_ON)
]

/-- Body of Turn_LEDs_OFF (main.c, lines 368 to 375). -/
def Turn_LEDs_OFF_instrs : List Instr := [
  .write .GPIOB_ODR (.andNotM LED1_ON),
  .write .GPIOB_ODR (.andNotM LED2_ON),
  .write .GPIOH_ODR (.andNotM LED3_ON),
  .write .GPIOI_ODR (.andNotM LED4_ON)
]

/-- Register accesses performed by main (main.c, lines 178 to 214) before the
infinite loop: the four configuration calls, then the initial LED on, off,
on sequence.  Delay and the external SystemInit and SystemCoreClockUpdate
perform no register access modelled here. -/
def mainPreInstrs : List Instr :=
  MCO_Pins_Config_instrs ++ SystemClock_Config_instrs ++
  MCO_Select_Set_instrs ++ GPIO_LEDs_Config_instrs ++
  Turn_LEDs_ON_instrs ++ Turn_LEDs_OFF_instrs ++ Turn_LEDs_ON_instrs

/-- Register accesses of one iteration of the while(1) loop in main (main.c,
lines 198 to 213): the four LED toggles, then Turn_LEDs_OFF; the Delay calls
perform no register access. -/
def mainLoopBodyInstrs : List Instr := [
  .write .GPIOB_ODR (.xorM LED1_ON),
  .write .GPIOB_ODR (.xorM LED2_ON),
  .write .GPIOH_ODR (.xorM LED3_ON),
  .write .GPIOI_ODR (.xorM LED4_ON)
] ++ Turn_LEDs_OFF_instrs

/-- The environment under which every polled hardware flag eventually
presents the awaited value (SystemClock_Config contains eight polling
loops). -/
def envAllReady : List Bool := List.replicate 8 true

/-- Runs of the LED blink loop: trace and state after a given number of
iterations, starting from a given state. -/
def loopRun : Nat → State → List Event × State
  | 0, s => ([], s)
  | n + 1, s =>
    let p := runP mainLoopBodyInstrs s
    let q := loopRun n p.2
    (p.1 ++ q.1, q.2)

/-- The final state of a run, with the start state as (never reached)
fallback for a run that diverged in a polling loop. -/
def finalStateOf (s0 : State) (res : List Event × Option (State × List Bool)) : State :=
  match res.2 with
  | some p => p.1
  | none => s0

/-- State when main reaches the while(1) loop, from reset, with every polled
flag eventually ready. -/
def mainLoopEntryState : State :=
  finalStateOf resetState (runI mainPreInstrs resetState envAllReady)

/-- The full write trace of main from the entry point: the pre-loop writes
followed by the writes of the first n loop iterations.  If a polling loop
hangs forever, the trace ends there. -/
def mainTrace (env : List Bool) (n : Nat) : List Event :=
  match runI mainPreInstrs resetState env with
  | (t, none) => t
  | (t, some (s, _)) => t ++ (loopRun n s).1

/- Field extractors for the configured registers (field positions per
RM0433 Rev 8: RCC_PLLCKSELR DIVM1 bits 9:4; RCC_PLL1DIVR DIVN1 bits 8:0 and
DIVP1 bits 15:9; RCC_CFGR SW bits 2:0, MCO1PRE 21:18, MCO1 24:22,
MCO2PRE 28:25, MCO2 31:29; RCC_D1CFGR HPRE 3:0, D1PPRE 6:4, D1CPRE 11:8;
RCC_D2CFGR D2PPRE1 6:4, D2PPRE2 10:8; RCC_D3CFGR D3PPRE 6:4). -/

/-- The external crystal frequency of the board, in Hz. -/
def HSE_VALUE : Nat := 25000000

def DIVM1_field (s : State) : Nat := (s.RCC_PLLCKSELR >>> 4) &&& 0x3F

def DIVN1_field (s : State) : Nat := s.RCC_PLL1DIVR &&& 0x1FF

def DIVP1_field (s : State) : Nat := (s.RCC_PLL1DIVR >>> 9) &&& 0x7F

def SW_field (s : State) : Nat := s.RCC_CFGR &&& 0x7

def HPRE_field (s : State) : Nat := s.RCC_D1CFGR &&& 0xF

def D1CPRE_field (s : State) : Nat := (s.RCC_D1CFGR >>> 8) &&& 0xF

def D1PPRE_field (s : State) : Nat := (s.RCC_D1CFGR >>> 4) &&& 0x7

def D2PPRE1_field (s : State) : Nat := (s.RCC_D2CFGR >>> 4) &&& 0x7

def D2PPRE2_field (s : State) : Nat := (s.RCC_D2CFGR >>> 8) &&& 0x7

def D3PPRE_field (s : State) : Nat := (s.RCC_D3CFGR >>> 4) &&& 0x7

def MCO1_field (s : State) : Nat := (s.RCC_CFGR >>> 22) &&& 0x7

def MCO1PRE_field (s : State) : Nat := (s.RCC_CFGR >>> 18) &&& 0xF

def MCO2_field (s : State) : Nat := (s.RCC_CFGR >>> 29) &&& 0x7

def MCO2PRE_field (s : State) : Nat := (s.RCC_CFGR >>> 25) &&& 0xF

def MODER8_field (s : State) : Nat := (s.GPIOA_MODER >>> 16) &&& 0x3

def AFSEL8_field (s : State) : Nat := s.GPIOA_AFRH &&& 0xF

def OT8_field (s : State) : Nat := (s.GPIOA_OTYPER >>> 8) &&& 0x1

def OSPEED8_field (s : State) : Nat := (s.GPIOA_OSPEEDR >>> 16) &&& 0x3

def MODER9_field (s : State) : Nat := (s.GPIOC_MODER >>> 18) &&& 0x3

def AFSEL9_field (s : State) : Nat := (s.GPIOC_AFRH >>> 4) &&& 0xF

def OT9_field (s : State) : Nat := (s.GPIOC_OTYPER >>> 9) &&& 0x1

def OSPEED9_field (s : State) : Nat := (s.GPIOC_OSPEEDR >>> 18) &&& 0x3

/-- The pll1_p_ck output frequency determined by the configured divider and
multiplier fields: HSE divided by DIVM1, multiplied by DIVN1 plus one,
divided by DIVP1 plus one (RM0433, PLL1 block diagram). -/
def pll1_p_ck_hz (s : State) : Nat :=
  HSE_VALUE / DIVM1_field s * (DIVN1_field s + 1) / (DIVP1_field s + 1)

/-- SystemClock_Config run with every RCC and PWR register at its documented
hardware reset value and every polled flag eventually ready. -/
def SystemClock_Config_resetRun : List Event × Option (State × List Bool) :=
  runI SystemClock_Config_instrs resetState envAllReady

/-- The register state at the return of SystemClock_Config, started from the
documented reset values. -/
def sccFinalState : State := finalStateOf resetState SystemClock_Config_resetRun

/-- Claim C1: assuming HSE supplies 25 MHz and every RCC register holds its
documented hardware reset value when SystemClock_Config begins, the PLL1
configuration written by SystemClock_Config leaves DIVM1 = 5, DIVN1 = 191
and DIVP1 = 1, so that pll1_p_ck = 25 MHz / 5 * (191 + 1) / (1 + 1)
= 480000000 Hz exactly, and the SW field of RCC_CFGR selects pll1_p_ck
(value 0b011). -/
theorem claim_C1_pll1_config_gives_480MHz :
    SystemClock_Config_resetRun.2.isSome = true ∧
    DIVM1_field sccFinalState = 5 ∧
    DIVN1_field sccFinalState = 191 ∧
    DIVP1_field sccFinalState = 1 ∧
    HSE_VALUE / DIVM1_field sccFinalState * (DIVN1_field sccFinalState + 1) /
      (DIVP1_field sccFinalState + 1) = 480000000 ∧
    pll1_p_ck_hz sccFinalState = 480000000 ∧
    SW_field sccFinalState = RCC_CFGR_SW_PLL1 := by
  decide

/-- Claim C7: when SystemClock_Config returns, having started from hardware
reset register values, the bus-domain prescaler fields hold HPRE = 0b1000,
D1CPRE = 0b0000, and D1PPRE = D2PPRE1 = D2PPRE2 = D3PPRE = 0b100. -/
theorem claim_C7_bus_prescalers :
    HPRE_field sccFinalState = 0b1000 ∧
    D1CPRE_field sccFinalState = 0b0000 ∧
    D1PPRE_field sccFinalState = 0b100 ∧
    D2PPRE1_field sccFinalState = 0b100 ∧
    D2PPRE2_field sccFinalState = 0b100 ∧
    D3PPRE_field sccFinalState = 0b100 := by
  decide

/-- The register state after MCO_Pins_Config and then MCO_Select_Set have
both run from the documented reset register values. -/
def pinsThenSelectState : State :=
  (runP (MCO_Pins_Config_instrs ++ MCO_Select_Set_instrs) resetState).2

/-- Claim C8: after MCO_Pins_Config and MCO_Select_Set have run from reset
register values, PA8 and PC9 are in alternate-function mode (MODER = 0b10)
with alternate function AF0, push-pull (OTYPER bit 0), highest output speed
(OSPEEDR = 0b11), and RCC_CFGR holds MCO1 = 0b000 with MCO1PRE = 0b0000
(prescaler disabled) and MCO2 = 0b011 (pll1_p_ck) with MCO2PRE = 0b0101
(division by 5). -/
theorem claim_C8_mco_routing :
    MODER8_field pinsThenSelectState = 0b10 ∧
    AFSEL8_field pinsThenSelectState = 0 ∧
    OT8_field pinsThenSelectState = 0 ∧
    OSPEED8_field pinsThenSelectState = 0b11 ∧
    MODER9_field pinsThenSelectState = 0b10 ∧
    AFSEL9_field pinsThenSelectState = 0 ∧
    OT9_field pinsThenSelectState = 0 ∧
    OSPEED9_field pinsThenSelectState = 0b11 ∧
    MCO1_field pinsThenSelectState = 0b000 ∧
    MCO1PRE_field pinsThenSelectState = 0b0000 ∧
    MCO2_field pinsThenSelectState = 0b011 ∧
    MCO2PRE_field pinsThenSelectState = 0b0101 := by
  decide

/-- The functions called by main (main.c, lines 178 to 214), as names. -/
inductive Fn where
  | systemInit
  | mcoPinsConfig
  | systemClockConfig
  | systemCoreClockUpdate
  | mcoSelectSet
  | gpioLedsConfig
  | turnLedsOn
  | turnLedsOff
  | delayCall
  deriving DecidableEq, Repr

/-- The call sequence of main before the while(1) loop (main.c, lines 180 to
194), in source order. -/
def mainPreLoopCalls : List Fn :=
  [.systemInit, .mcoPinsConfig, .systemClockConfig, .systemCoreClockUpdate,
   .mcoSelectSet, .gpioLedsConfig, .turnLedsOn, .delayCall, .delayCall,
   .turnLedsOff, .delayCall, .turnLedsOn]

/-- The call sequence of one iteration of the while(1) loop of main (main.c,
lines 198 to 213); the four LED toggles are inline statements, not calls. -/
def mainLoopBodyCalls : List Fn :=
  [.delayCall, .delayCall, .delayCall, .delayCall, .delayCall,
   .turnLedsOff, .delayCall, .delayCall, .delayCall]

/-- The four void configuration functions of the firmware. -/
def isConfigFn : Fn → Bool
  | .mcoPinsConfig => true
  | .systemClockConfig => true
  | .mcoSelectSet => true
  | .gpioLedsConfig => true
  | _ => false

/-- Claim C6: main calls exactly four void configuration functions, each
exactly once, in the fixed order MCO_Pins_Config, SystemClock_Config,
MCO_Select_Set, GPIO_LEDs_Config, all before the first LED call, and no
configuration function is called in the loop body afterwards. -/
theorem claim_C6_main_calls_four_configs_once_in_order :
    mainPreLoopCalls.filter isConfigFn =
      [.mcoPinsConfig, .systemClockConfig, .mcoSelectSet, .gpioLedsConfig] ∧
    mainPreLoopCalls.count .mcoPinsConfig = 1 ∧
    mainPreLoopCalls.count .systemClockConfig = 1 ∧
    mainPreLoopCalls.count .mcoSelectSet = 1 ∧
    mainPreLoopCalls.count .gpioLedsConfig = 1 ∧
    mainPreLoopCalls.indexOf Fn.gpioLedsConfig <
      mainPreLoopCalls.indexOf Fn.turnLedsOn ∧
    mainLoopBodyCalls.filter isConfigFn = [] := by
  decide

/-- Iteration count of the Delay busy loop (main.c, lines 217 to 223:
for i = 0; i < 2000000; i++ with an empty body), counted from loop
counter value i. -/
def delayIterationsFrom (i : Nat) : Nat :=
  if h : i < 2000000 then delayIterationsFrom (i + 1) + 1 else 0
termination_by 2000000 - i
decreasing_by omega

/-- The number of iterations Delay executes from its start. -/
def delayIterations : Nat := delayIterationsFrom 0

/-- The busy loop of Delay runs exactly the remaining count of iterations. -/
theorem delayIterationsFrom_eq (n : Nat) :
    ∀ i : Nat, i + n = 2000000 → delayIterationsFrom i = n := by
  induction n with
  | zero =>
    intro i hi
    rw [delayIterationsFrom, dif_neg (by omega)]
  | succ n ih =>
    intro i hi
    rw [delayIterationsFrom, dif_pos (by omega), ih (i + 1) (by omega)]

/-- The guard of the while(1) loop of main (main.c, line 198): the constant
true, whatever the machine state. -/
def mainLoopGuard : State → Bool := fun _ => true

/-- Claim C4: with every polled flag eventually ready, each configuration
and LED function terminates (the run of its body reaches a final state);
Delay terminates unconditionally after exactly 2000000 iterations; and main
never terminates: after any number of loop iterations the while(1) guard is
still true. -/
theorem claim_C4_termination :
    (∀ (env : List Bool) (s : State),
      (runI MCO_Pins_Config_instrs s env).2.isSome = true) ∧
    (∀ (env : List Bool) (s : State),
      (runI MCO_Select_Set_instrs s env).2.isSome = true) ∧
    (∀ (env : List Bool) (s : State),
      (runI GPIO_LEDs_Config_instrs s env).2.isSome = true) ∧
    (∀ (env : List Bool) (s : State),
      (runI Turn_LEDs_ON_instrs s env).2.isSome = true) ∧
    (∀ (env : List Bool) (s : State),
      (runI Turn_LEDs_OFF_instrs s env).2.isSome = true) ∧
    (∀ (tail : List Bool) (s : State),
      (runI SystemClock_Config_instrs s (envAllReady ++ tail)).2.isSome = true) ∧
    delayIterations = 2000000 ∧
    (∀ n : Nat, mainLoopGuard (loopRun n mainLoopEntryState).2 = true) := by
  exact ⟨fun _ _ => rfl, fun _ _ => rfl, fun _ _ => rfl, fun _ _ => rfl,
    fun _ _ => rfl, fun _ _ => rfl, delayIterationsFrom_eq 2000000 0 rfl,
    fun _ => rfl⟩

/-- Ordering rank of a write event, following the bring-up sequence of the
firmware: 0 for the core voltage-scaling writes (PWR_D3CR VOS bits and
SYSCFG_PWRCR ODEN), 1 for the HSE oscillator enable, 2 for PLL1
configuration and enable writes, 3 for the bus-domain prescaler writes,
4 for the MCO routing writes to RCC_CFGR (bit fields 18 to 31), 5 for LED
writes to a GPIO output data register, and none for writes the ordering
constrains in no way. -/
def rankOf (e : Event) : Option Nat :=
  if e.reg = .PWR_D3CR ∨ e.reg = .SYSCFG_PWRCR then some 0
  else if e.reg = .RCC_CR ∧ e.op = .orM RCC_CR_HSEON then some 1
  else if e.reg = .RCC_PLLCKSELR ∨ e.reg = .RCC_PLL1DIVR ∨ e.reg = .RCC_PLLCFGR ∨
      e.reg = .RCC_PLL1FRACR ∨
      (e.reg = .RCC_CR ∧ (e.op = .andNotM RCC_CR_PLL1ON ∨ e.op = .orM RCC_CR_PLLON))
    then some 2
  else if e.reg = .RCC_D1CFGR ∨ e.reg = .RCC_D2CFGR ∨ e.reg = .RCC_D3CFGR then some 3
  else if e.reg = .RCC_CFGR ∧ opMask e.op &&& 0xFFFC0000 ≠ 0 then some 4
  else if e.reg = .GPIOB_ODR ∨ e.reg = .GPIOH_ODR ∨ e.reg = .GPIOI_ODR then some 5
  else none

/-- Every rank is at most 5. -/
theorem rank_le_five (e : Event) (x : Nat) (h : rankOf e = some x) : x ≤ 5 := by
  unfold rankOf at h
  split_ifs at h <;> simp_all <;> omega

/-- Boolean relation for the trace ordering: ranked events must appear in
nondecreasing rank order; unranked events are unconstrained. -/
def rankLeB (a b : Event) : Bool :=
  match rankOf a, rankOf b with
  | some x, some y => decide (x ≤ y)
  | _, _ => true

/-- The trace ordering property of claim C2: along the trace, ranked writes
appear in nondecreasing rank order, hence every write of a lower class
precedes every write of a strictly higher class. -/
def RankOrdered (t : List Event) : Prop :=
  List.Pairwise (fun a b => rankLeB a b = true) t

/-- Any event may precede an event of the maximal rank 5. -/
theorem rankLeB_of_rank_five (a b : Event) (hb : rankOf b = some 5) :
    rankLeB a b = true := by
  unfold rankLeB
  rw [hb]
  cases h : rankOf a with
  | none => rfl
  | some x =>
    have hx := rank_le_five a x h
    simpa using hx

/-- A list of rank-5 events is rank ordered. -/
theorem pairwise_of_all_rank_five (t : List Event)
    (ht : ∀ e ∈ t, rankOf e = some 5) : RankOrdered t := by
  induction t with
  | nil => exact List.Pairwise.nil
  | cons a t ih =>
    refine List.Pairwise.cons ?_ (ih ?_)
    · intro b hb
      exact rankLeB_of_rank_five a b (ht b (List.mem_cons_of_mem a hb))
    · intro e he
      exact ht e (List.mem_cons_of_mem a he)

/-- Appending rank-5 events to a rank-ordered trace keeps it rank ordered. -/
theorem rankOrdered_append (t u : List Event) (ht : RankOrdered t)
    (hu : ∀ e ∈ u, rankOf e = some 5) : RankOrdered (t ++ u) := by
  rw [RankOrdered, List.pairwise_append]
  exact ⟨ht, pairwise_of_all_rank_five u hu,
    fun a _ b hb => rankLeB_of_rank_five a b (hu b hb)⟩

/-- The rank of an event depends only on its register and operation. -/
def rankRO (r : Reg) (o : Op) : Option Nat := rankOf ⟨r, o, 0⟩

/-- The registers and operations written by one iteration of the LED blink
loop body, whatever the starting state: the four toggles, then the four
clears of Turn_LEDs_OFF. -/
theorem loopBody_trace_regOps (s : State) :
    ((runP mainLoopBodyInstrs s).1.map fun e => (e.reg, e.op)) =
      [(.GPIOB_ODR, .xorM LED1_ON), (.GPIOB_ODR, .xorM LED2_ON),
       (.GPIOH_ODR, .xorM LED3_ON), (.GPIOI_ODR, .xorM LED4_ON),
       (.GPIOB_ODR, .andNotM LED1_ON), (.GPIOB_ODR, .andNotM LED2_ON),
       (.GPIOH_ODR, .andNotM LED3_ON), (.GPIOI_ODR, .andNotM LED4_ON)] := rfl

/-- Every write of the loop body is an LED write (rank 5). -/
theorem loopBody_events_rank_five (s : State) (e : Event)
    (he : e ∈ (runP mainLoopBodyInstrs s).1) : rankOf e = some 5 := by
  have h1 : (e.reg, e.op) ∈ ((runP mainLoopBodyInstrs s).1.map fun x => (x.reg, x.op)) :=
    List.mem_map_of_mem _ he
  rw [loopBody_trace_regOps s] at h1
  have h2 : rankOf e = rankRO e.reg e.op := rfl
  simp only [List.mem_cons, List.not_mem_nil, or_false, Prod.mk.injEq] at h1
  rcases h1 with ⟨ha, hb⟩ | ⟨ha, hb⟩ | ⟨ha, hb⟩ | ⟨ha, hb⟩ |
    ⟨ha, hb⟩ | ⟨ha, hb⟩ | ⟨ha, hb⟩ | ⟨ha, hb⟩ <;>
    rw [h2, ha, hb] <;> rfl

/-- Every write of any number of loop iterations is an LED write. -/
theorem loopRun_events_rank_five (n : Nat) :
    ∀ (s : State) (e : Event), e ∈ (loopRun n s).1 → rankOf e = some 5 := by
  induction n with
  | zero =>
    intro s e he
    simp [loopRun] at he
  | succ n ih =>
    intro s e he
    simp only [loopRun, List.mem_append] at he
    rcases he with h | h
    · exact loopBody_events_rank_five s e h
    · exact ih _ e h

/-- The pre-loop write trace of main from reset, with every polled flag
eventually ready. -/
def mainPreTrace : List Event := (runI mainPreInstrs resetState envAllReady).1

/-- Claim C2: in the trace of register writes from the entry point (for any
number of loop iterations), the voltage-scaling writes all precede the HSE
enable, which precedes every PLL1 configuration and enable write, which
precedes the bus-domain prescaler writes, which precede the MCO routing
writes of MCO_Select_Set, which precede every LED write to a GPIO output
data register: ranked writes occur in nondecreasing rank order. -/
theorem claim_C2_write_ordering (n : Nat) :
    RankOrdered (mainTrace envAllReady n) := by
  have h : mainTrace envAllReady n =
      mainPreTrace ++ (loopRun n mainLoopEntryState).1 := rfl
  rw [h]
  refine rankOrdered_append _ _ ?_
    (fun e he => loopRun_events_rank_five n mainLoopEntryState e he)
  unfold RankOrdered mainPreTrace
  decide

/-- Writes performed by SystemClock_Config before its k-th polling loop:
1 before each VOS poll, 4 before the VOSRDY poll, 5 before the HSERDY poll,
6 before the SWS-HSE poll, 8 before the PLL1RDY-clear poll, 24 before the
PLL1RDY-set poll, 27 before the SWS-PLL1 poll. -/
def sccCut (k : Nat) : Nat := [1, 1, 4, 5, 6, 8, 24, 27].getD k 0

/-- The complete write trace of SystemClock_Config from reset when every
polled flag is eventually ready. -/
def sccFullTrace : List Event := SystemClock_Config_resetRun.1

/-- Claim C3: every wait in the program is one of the eight unguarded
polling loops of SystemClock_Config (two on the PWR_D3CR VOS bits, one on
VOSRDY, one on HSERDY, one on SWS after the switch to HSE, one on PLL1RDY
clearing after the PLL disable, one on PLL1RDY setting after the PLL
enable, one on SWS after the switch to PLL1), and if the hardware never
presents the flag awaited by the k-th poll then the function never returns
(no final state) and performs no register write beyond those preceding that
poll, whatever the hardware would have answered later. -/
theorem claim_C3_polls_hang_forever :
    (pollsOf mainPreInstrs =
      [(.PWR_D3CR, PWR_D3CR_VOS_1, true), (.PWR_D3CR, PWR_D3CR_VOS_0, true),
       (.PWR_D3CR, PWR_D3CR_VOSRDY, true), (.RCC_CR, RCC_CR_HSERDY, true),
       (.RCC_CFGR, RCC_CFGR_SWS_HSE, true), (.RCC_CR, RCC_CR_PLL1RDY, false),
       (.RCC_CR, RCC_CR_PLL1RDY, true), (.RCC_CFGR, RCC_CFGR_SWS_PLL1, true)] ∧
     pollsOf mainLoopBodyInstrs = []) ∧
    (∀ (tail : List Bool) (k : Nat), k < 8 →
      (runI SystemClock_Config_instrs resetState
        (List.replicate k true ++ false :: tail)).2 = none ∧
      (runI SystemClock_Config_instrs resetState
        (List.replicate k true ++ false :: tail)).1 =
        sccFullTrace.take (sccCut k)) := by
  refine ⟨by decide, ?_⟩
  intro tail k hk
  interval_cases k <;> exact ⟨rfl, rfl⟩

/-- Witness for claim C3 at the first poll with no later hardware answers. -/
theorem claim_C3_witness :
    0 < 8 ∧
    ((runI SystemClock_Config_instrs resetState
      (List.replicate 0 true ++ false :: [])).2 = none ∧
     (runI SystemClock_Config_instrs resetState
      (List.replicate 0 true ++ false :: [])).1 =
      sccFullTrace.take (sccCut 0)) :=
  ⟨by decide, claim_C3_polls_hang_forever.2 [] 0 (by decide)⟩

/-- The register and operation of an event, without the stored value. -/
def evRegOp (e : Event) : Reg × Op := (e.reg, e.op)

set_option maxHeartbeats 2000000 in
/-- Claim C5: the program consumes no input beyond the polled hardware
flags.  Two executions whose polled flags present identical values produce
identical write traces; hardware answers beyond the polls actually consulted
are irrelevant; and the whole pre-loop write trace is one fixed constant
list (every register, operation, mask and written value is determined at
compile time), as are the registers and operations of every loop
iteration. -/
theorem claim_C5_determinism_constants :
    (∀ (env1 env2 : List Bool) (n : Nat), env1 = env2 →
      mainTrace env1 n = mainTrace env2 n) ∧
    (∀ (tail : List Bool) (n : Nat),
      mainTrace (envAllReady ++ tail) n = mainTrace envAllReady n) ∧
    mainTrace envAllReady 0 = [
      ⟨.RCC_AHB4ENR, .orM 5, 5⟩,
      ⟨.GPIOA_MODER, .orM 131072, 2885681151⟩,
      ⟨.GPIOA_MODER, .andNotM 65536, 2885615615⟩,
      ⟨.GPIOC_MODER, .orM 524288, 4294967295⟩,
      ⟨.GPIOC_MODER, .andNotM 262144, 4294705151⟩,
      ⟨.GPIOA_AFRH, .andNotM 15, 0⟩,
      ⟨.GPIOC_AFRH, .andNotM 240, 0⟩,
      ⟨.GPIOA_OTYPER, .andNotM 256, 0⟩,
      ⟨.GPIOC_OTYPER, .andNotM 512, 0⟩,
      ⟨.GPIOC_OSPEEDR, .orM 786432, 786432⟩,
      ⟨.GPIOA_OSPEEDR, .orM 196608, 201523200⟩,
      ⟨.PWR_D3CR, .orM 49152, 49152⟩,
      ⟨.PWR_CR3, .orM 7, 71⟩,
      ⟨.RCC_APB4ENR, .orM 2, 65538⟩,
      ⟨.SYSCFG_PWRCR, .orM 1, 1⟩,
      ⟨.RCC_CR, .orM 65536, 65573⟩,
      ⟨.RCC_CFGR, .orM 2, 2⟩,
      ⟨.RCC_CR, .andNotM 1, 65572⟩,
      ⟨.RCC_CR, .andNotM 16777216, 65572⟩,
      ⟨.RCC_PLLCKSELR, .andNotM 1008, 33685504⟩,
      ⟨.RCC_PLLCKSELR, .orM 80, 33685584⟩,
      ⟨.RCC_PLLCKSELR, .orM 2, 33685586⟩,
      ⟨.RCC_PLL1DIVR, .orM 191, 16843455⟩,
      ⟨.RCC_PLL1DIVR, .orM 512, 16843455⟩,
      ⟨.RCC_PLL1DIVR, .orM 65536, 16843455⟩,
      ⟨.RCC_PLL1DIVR, .orM 16777216, 16843455⟩,
      ⟨.RCC_PLLCFGR, .andNotM 1, 33488896⟩,
      ⟨.RCC_PLL1FRACR, .setV 0, 0⟩,
      ⟨.RCC_PLLCFGR, .orM 8, 33488904⟩,
      ⟨.RCC_PLLCFGR, .andNotM 2, 33488904⟩,
      ⟨.RCC_PLLCFGR, .orM 65536, 33488904⟩,
      ⟨.RCC_PLLCFGR, .orM 131072, 33488904⟩,
      ⟨.RCC_PLLCFGR, .orM 262144, 33488904⟩,
      ⟨.RCC_PLLCFGR, .orM 1, 33488905⟩,
      ⟨.RCC_CR, .orM 16777216, 16842788⟩,
      ⟨.RCC_D1CFGR, .orM 8, 8⟩,
      ⟨.RCC_D1CFGR, .andNotM 3840, 8⟩,
      ⟨.RCC_CFGR, .orM 3, 3⟩,
      ⟨.RCC_D1CFGR, .orM 64, 72⟩,
      ⟨.RCC_D2CFGR, .orM 64, 64⟩,
      ⟨.RCC_D2CFGR, .orM 1024, 1088⟩,
      ⟨.RCC_D3CFGR, .orM 64, 64⟩,
      ⟨.RCC_CFGR, .andNotM 29360128, 3⟩,
      ⟨.RCC_CFGR, .andNotM 2147483648, 3⟩,
      ⟨.RCC_CFGR, .orM 1073741824, 1073741827⟩,
      ⟨.RCC_CFGR, .orM 536870912, 1610612739⟩,
      ⟨.RCC_CFGR, .andNotM 3932160, 1610612739⟩,
      ⟨.RCC_CFGR, .andNotM 268435456, 1610612739⟩,
      ⟨.RCC_CFGR, .orM 134217728, 1744830467⟩,
      ⟨.RCC_CFGR, .andNotM 67108864, 1744830467⟩,
      ⟨.RCC_CFGR, .orM 33554432, 1778384899⟩,
      ⟨.RCC_AHB4ENR, .orM 386, 391⟩,
      ⟨.GPIOB_MODER, .andNotM 8192, 4294958783⟩,
      ⟨.GPIOB_MODER, .orM 4096, 4294958783⟩,
      ⟨.GPIOB_MODER, .andNotM 32768, 4294926015⟩,
      ⟨.GPIOB_MODER, .orM 16384, 4294926015⟩,
      ⟨.GPIOH_MODER, .andNotM 512, 4294966783⟩,
      ⟨.GPIOH_MODER, .orM 256, 4294966783⟩,
      ⟨.GPIOI_MODER, .andNotM 131072, 4294836223⟩,
      ⟨.GPIOI_MODER, .orM 65536, 4294836223⟩,
      ⟨.GPIOB_ODR, .orM 64, 64⟩,
      ⟨.GPIOB_ODR, .orM 128, 192⟩,
      ⟨.GPIOH_ODR, .orM 16, 16⟩,
      ⟨.GPIOI_ODR, .orM 256, 256⟩,
      ⟨.GPIOB_ODR, .andNotM 64, 128⟩,
      ⟨.GPIOB_ODR, .andNotM 128, 0⟩,
      ⟨.GPIOH_ODR, .andNotM 16, 0⟩,
      ⟨.GPIOI_ODR, .andNotM 256, 0⟩,
      ⟨.GPIOB_ODR, .orM 64, 64⟩,
      ⟨.GPIOB_ODR, .orM 128, 192⟩,
      ⟨.GPIOH_ODR, .orM 16, 16⟩,
      ⟨.GPIOI_ODR, .orM 256, 256⟩] ∧
    (∀ s : State, ((runP mainLoopBodyInstrs s).1.map evRegOp) =
      [(.GPIOB_ODR, .xorM LED1_ON), (.GPIOB_ODR, .xorM LED2_ON),
       (.GPIOH_ODR, .xorM LED3_ON), (.GPIOI_ODR, .xorM LED4_ON),
       (.GPIOB_ODR, .andNotM LED1_ON), (.GPIOB_ODR, .andNotM LED2_ON),
       (.GPIOH_ODR, .andNotM LED3_ON), (.GPIOI_ODR, .andNotM LED4_ON)]) := by
  refine ⟨?_, ?_, ?_, ?_⟩
  · intro env1 env2 n h
    rw [h]
  · intro tail n
    rfl
  · decide
  · intro s
    rfl

/-- Witness for claim C5 at two identical environments. -/
theorem claim_C5_witness :
    envAllReady = envAllReady ∧
    mainTrace envAllReady 1 = mainTrace envAllReady 1 :=
  ⟨rfl, claim_C5_determinism_constants.1 envAllReady envAllReady 1 rfl⟩

/-- The machine state after n iterations of the while(1) loop of main,
starting from reset with every polled flag eventually ready. -/
def loopStateAfter (n : Nat) : State := (loopRun n mainLoopEntryState).2

/-- All four LED output bits (GPIOB ODR bits 6 and 7, GPIOH ODR bit 4,
GPIOI ODR bit 8) are clear. -/
def ledsAllOff (s : State) : Prop :=
  s.GPIOB_ODR.testBit 6 = false ∧ s.GPIOB_ODR.testBit 7 = false ∧
  s.GPIOH_ODR.testBit 4 = false ∧ s.GPIOI_ODR.testBit 8 = false

/-- The state after the first j register writes of the loop body. -/
def bodyStateAfter (j : Nat) (s : State) : State :=
  (runP (mainLoopBodyInstrs.take j) s).2

/-- Within one loop-body run from state s: each of the four toggles finds
its LED bit at 0 and sets it to 1 (the LEDs light one after another), and
after the Turn_LEDs_OFF writes all four are off together. -/
def togglesFindZeroThenSet (s : State) : Prop :=
  (bodyStateAfter 0 s).GPIOB_ODR.testBit 6 = false ∧
  (bodyStateAfter 1 s).GPIOB_ODR.testBit 6 = true ∧
  (bodyStateAfter 1 s).GPIOB_ODR.testBit 7 = false ∧
  (bodyStateAfter 2 s).GPIOB_ODR.testBit 7 = true ∧
  (bodyStateAfter 2 s).GPIOH_ODR.testBit 4 = false ∧
  (bodyStateAfter 3 s).GPIOH_ODR.testBit 4 = true ∧
  (bodyStateAfter 3 s).GPIOI_ODR.testBit 8 = false ∧
  (bodyStateAfter 4 s).GPIOI_ODR.testBit 8 = true ∧
  ledsAllOff (bodyStateAfter 8 s)

/-- The steady state of the blink loop: the state at the end of the first
iteration. -/
def ledLoopSteadyState : State := loopStateAfter 1

/-- Iterating the loop body from a fixed point stays there. -/
theorem loopRun_fixedPoint (n : Nat) :
    ∀ s : State, (runP mainLoopBodyInstrs s).2 = s → (loopRun n s).2 = s := by
  induction n with
  | zero => intro s _; rfl
  | succ n ih =>
    intro s h
    have h2 : (loopRun (n + 1) s).2 = (loopRun n (runP mainLoopBodyInstrs s).2).2 := rfl
    rw [h2, h]
    exact ih s h

/-- The end-of-first-iteration state is a fixed point of the loop body. -/
theorem steadyState_fixed :
    (runP mainLoopBodyInstrs ledLoopSteadyState).2 = ledLoopSteadyState := by
  decide

/-- After every iteration past the first, the loop is in the steady state. -/
theorem loopStateAfter_succ_eq (n : Nat) :
    loopStateAfter (n + 1) = ledLoopSteadyState := by
  have h : loopStateAfter (n + 1) = (loopRun n ledLoopSteadyState).2 := rfl
  rw [h]
  exact loopRun_fixedPoint n ledLoopSteadyState steadyState_fixed

/-- Claim C9: for every iteration of the infinite loop of main, at the
moment the Turn_LEDs_OFF call of that iteration returns (and hence at the
iteration end, since the remaining Delay calls write nothing) all four LED
output bits are 0; consequently in every iteration after the first each of
the four toggles finds its LED bit at 0 and sets it to 1, so the steady
blink pattern lights the LEDs one after another and then turns them all off
together. -/
theorem claim_C9_blink_invariant :
    (∀ n : Nat, ledsAllOff (loopStateAfter (n + 1))) ∧
    (∀ n : Nat, 1 ≤ n → togglesFindZeroThenSet (loopStateAfter n)) := by
  constructor
  · intro n
    rw [loopStateAfter_succ_eq n]
    unfold ledsAllOff
    decide
  · intro n hn
    obtain ⟨m, rfl⟩ : ∃ m, n = m + 1 := ⟨n - 1, by omega⟩
    rw [loopStateAfter_succ_eq m]
    unfold togglesFindZeroThenSet ledsAllOff
    decide

/-- Witness for claim C9 at the second iteration. -/
theorem claim_C9_witness :
    1 ≤ 1 ∧ togglesFindZeroThenSet (loopStateAfter 1) :=
  ⟨by decide, claim_C9_blink_invariant.2 1 (by decide)⟩

/-- The state at the return of MCO_Select_Set, started from any state. -/
def MCO_Select_Set_run (s : State) : State := (runP MCO_Select_Set_instrs s).2

/-- Every bit of M32 below position 32 is set. -/
theorem M32_testBit_lt32 (i : Nat) (hi : i < 32) : M32.testBit i = true := by
  have h : M32 = 2 ^ 32 - 1 := rfl
  rw [h, Nat.testBit_two_pow_sub_one]
  simpa using hi

/-- A mask that is a multiple of 2^18 has no bit below position 18. -/
theorem lowMask_testBit_false (m i : Nat) (h : m % 2 ^ 18 = 0) (hi : i < 18) :
    m.testBit i = false := by
  have h2 := Nat.testBit_mod_two_pow m 18 i
  rw [h, Nat.zero_testBit] at h2
  have h3 : decide (i < 18) = true := by simpa using hi
  rw [h3, Bool.true_and] at h2
  exact h2.symm

/-- An or with a mask that misses bit i keeps bit i. -/
theorem testBit_or_keep (x m i : Nat) (h : m.testBit i = false) :
    (x ||| m).testBit i = x.testBit i := by
  rw [Nat.testBit_lor, h, Bool.or_false]

/-- An and-not with a mask that misses bit i keeps bit i (below 32 bits). -/
theorem testBit_andNot_keep (x m i : Nat) (h : m.testBit i = false)
    (hi : i < 32) : (x &&& (M32 ^^^ m)).testBit i = x.testBit i := by
  rw [Nat.testBit_land, Nat.testBit_xor, h, M32_testBit_lt32 i hi]
  simp

set_option maxHeartbeats 1000000 in
/-- Claim C10: MCO_Select_Set modifies only the MCO1, MCO2, MCO1PRE and
MCO2PRE bit fields (bits 18 to 31) of RCC_CFGR.  Whatever the starting
state, every bit of RCC_CFGR below position 18 (in particular the SW field)
is unchanged when it returns, and every other register keeps its exact
value. -/
theorem claim_C10_mco_select_frame (s : State) :
    (∀ i : Nat, i < 18 →
      (MCO_Select_Set_run s).RCC_CFGR.testBit i = s.RCC_CFGR.testBit i) ∧
    (∀ r : Reg, r ≠ Reg.RCC_CFGR →
      getReg (MCO_Select_Set_run s) r = getReg s r) := by
  constructor
  · intro i hi
    have hi32 : i < 32 := by omega
    have hE : (MCO_Select_Set_run s).RCC_CFGR =
        ((((((((s.RCC_CFGR &&& (M32 ^^^ 0x01C00000)) &&& (M32 ^^^ 0x80000000)) |||
          0x40000000) ||| 0x20000000) &&& (M32 ^^^ 0x003C0000)) &&&
          (M32 ^^^ 0x10000000)) ||| 0x08000000) &&& (M32 ^^^ 0x04000000)) |||
          0x02000000 := by
      simp [MCO_Select_Set_run, runP, MCO_Select_Set_instrs, getReg, setReg, applyOp,
        RCC_CFGR_MCO1_2, RCC_CFGR_MCO1_1, RCC_CFGR_MCO1_0, RCC_CFGR_MCO2_2,
        RCC_CFGR_MCO2_1, RCC_CFGR_MCO2_0, RCC_CFGR_MCO1PRE_3, RCC_CFGR_MCO1PRE_2,
        RCC_CFGR_MCO1PRE_1, RCC_CFGR_MCO1PRE_0, RCC_CFGR_MCO2PRE_3, RCC_CFGR_MCO2PRE_2,
        RCC_CFGR_MCO2PRE_1, RCC_CFGR_MCO2PRE_0]
    rw [hE]
    rw [testBit_or_keep _ 0x02000000 i (lowMask_testBit_false 0x02000000 i (by decide) hi)]
    rw [testBit_andNot_keep _ 0x04000000 i (lowMask_testBit_false 0x04000000 i (by decide) hi) hi32]
    rw [testBit_or_keep _ 0x08000000 i (lowMask_testBit_false 0x08000000 i (by decide) hi)]
    rw [testBit_andNot_keep _ 0x10000000 i (lowMask_testBit_false 0x10000000 i (by decide) hi) hi32]
    rw [testBit_andNot_keep _ 0x003C0000 i (lowMask_testBit_false 0x003C0000 i (by decide) hi) hi32]
    rw [testBit_or_keep _ 0x20000000 i (lowMask_testBit_false 0x20000000 i (by decide) hi)]
    rw [testBit_or_keep _ 0x40000000 i (lowMask_testBit_false 0x40000000 i (by decide) hi)]
    rw [testBit_andNot_keep _ 0x80000000 i (lowMask_testBit_false 0x80000000 i (by decide) hi) hi32]
    rw [testBit_andNot_keep _ 0x01C00000 i (lowMask_testBit_false 0x01C00000 i (by decide) hi) hi32]
  · intro r hr
    cases r <;> first
      | exact absurd rfl hr
      | simp [MCO_Select_Set_run, runP, MCO_Select_Set_instrs, getReg, setReg, applyOp]

/-- Witness for claim C10 at the reset state, bit 0, and register RCC_CR. -/
theorem claim_C10_witness :
    (0 : Nat) < 18 ∧
    (MCO_Select_Set_run resetState).RCC_CFGR.testBit 0 =
      resetState.RCC_CFGR.testBit 0 ∧
    Reg.RCC_CR ≠ Reg.RCC_CFGR ∧
    getReg (MCO_Select_Set_run resetState) Reg.RCC_CR =
      getReg resetState Reg.RCC_CR :=
  ⟨by decide,
   (claim_C10_mco_select_frame resetState).1 0 (by decide),
   by decide,
   (claim_C10_mco_select_frame resetState).2 Reg.RCC_CR (by decide)⟩
